import Mathlib

/-!
Verification of the Cypress-results autograder (`autograder/grader.py`,
`autograder/util.py`) against its natural-language specification.

The grader's data is parsed JSON, modelled here by the inductive type `JVal`
(Python `None`/`bool`/`int`/`str`/`list`/`dict`).  JSON numbers are modelled
as integers: every number the grader manipulates is a test counter.
Python dicts are modelled as association lists with unique keys
(`json.loads` keeps the last duplicate key, so a parsed document always has
unique keys); `dict.get` is first-match lookup.

File-system access, subprocess invocation (OpenSSL) and the environment are
modelled by passing their outcomes as explicit parameters; Python exceptions
are modelled with `Except String`, the string being (an abbreviation of) the
exception text.
-/

/-- Parsed JSON value / the Python values the grader manipulates. -/
inductive JVal where
  | null : JVal
  | bool : Bool → JVal
  | num : Int → JVal
  | str : String → JVal
  | arr : List JVal → JVal
  | obj : List (String × JVal) → JVal

/-- A parsed JSON object (Python dict) as an association list. -/
abbrev Obj := List (String × JVal)

/-- Python truthiness of a value (`bool(v)`). -/
def jtruthy : JVal → Bool
  | .null => false
  | .bool b => b
  | .num n => n != 0
  | .str s => s != ""
  | .arr [] => false
  | .arr (_ :: _) => true
  | .obj [] => false
  | .obj (_ :: _) => true

/-- Python `a or b`: `a` if truthy, else `b`. -/
def pyOr (a b : JVal) : JVal := if jtruthy a then a else b

/-- Python `d.get(k)`: `None` when the key is missing. -/
def dictGet (kvs : Obj) (k : String) : JVal := (List.lookup k kvs).getD JVal.null

/-- Python `d.get(k, default)`. -/
def dictGetD (kvs : Obj) (k : String) (d : JVal) : JVal := (List.lookup k kvs).getD d

/-- Keep only the dict entries of a list (`isinstance(test, dict)` filters). -/
def asObj : JVal → Option Obj
  | .obj kvs => some kvs
  | _ => none

/-- Size measure for well-founded recursion over `JVal`. -/
def JVal.size : JVal → Nat
  | .null => 1
  | .bool _ => 1
  | .num _ => 1
  | .str _ => 1
  | .arr [] => 1
  | .arr (x :: xs) => JVal.size x + JVal.size (.arr xs)
  | .obj [] => 1
  | .obj ((_, v) :: kvs) => JVal.size v + JVal.size (.obj kvs)

theorem JVal.size_pos : ∀ v : JVal, 0 < v.size
  | .null => by simp [size]
  | .bool _ => by simp [size]
  | .num _ => by simp [size]
  | .str _ => by simp [size]
  | .arr [] => by simp [size]
  | .arr (x :: xs) => by
      have h := JVal.size_pos x
      simp only [size]; omega
  | .obj [] => by simp [size]
  | .obj ((_, v) :: kvs) => by
      have h := JVal.size_pos v
      simp only [size]; omega

theorem lookup_size_lt {kvs : Obj} {k : String} {v : JVal}
    (h : List.lookup k kvs = some v) : v.size < (JVal.obj kvs).size := by
  induction kvs with
  | nil => simp [List.lookup] at h
  | cons hd tl ih =>
      obtain ⟨k', v'⟩ := hd
      simp only [List.lookup] at h
      by_cases hk : k = k'
      · have hbeq : (k == k') = true := beq_iff_eq.mpr hk
        rw [hbeq] at h
        simp only [Option.some.injEq] at h
        subst h
        have := JVal.size_pos (JVal.obj tl)
        simp only [JVal.size]; omega
      · have hbeq : (k == k') = false := beq_eq_false_iff_ne.mpr hk
        rw [hbeq] at h
        have := ih h
        have := JVal.size_pos v'
        simp only [JVal.size] at *; omega

/-!
Python string primitives, implemented over `String.data` so that concrete
instances evaluate inside the kernel.  The grader only ever handles ASCII
state names and filenames, for which these agree with CPython's `str`
methods.
-/

/-- Python `s.lower()` (ASCII case folding). -/
def pyLower (s : String) : String := ⟨s.data.map Char.toLower⟩

/-- Python `s.endswith(suffix)`. -/
def pyEndsWith (s suf : String) : Bool := suf.data.isSuffixOf s.data

/-- Python `s[:-n]` for `n ≤ len(s)`: drop the last `n` characters. -/
def pyDropRight (s : String) (n : Nat) : String := ⟨s.data.take (s.data.length - n)⟩

/-- Python `s.strip()` (whitespace at both ends; CPython also strips some
further Unicode whitespace, which never occurs in the grader's inputs). -/
def pyStrip (s : String) : String :=
  ⟨((s.data.dropWhile Char.isWhitespace).reverse.dropWhile Char.isWhitespace).reverse⟩

/-- Python `sep.join(parts)`. -/
def pyJoin (sep : String) : List String → String
  | [] => ""
  | [x] => x
  | x :: y :: xs => x ++ sep ++ pyJoin sep (y :: xs)

/-- Digit characters to a natural number, `none` on a non-digit. -/
def digitsToNat : List Char → Option Nat
  | [] => none
  | cs => cs.foldlM (fun acc c => if c.isDigit then some (acc * 10 + (c.toNat - 48)) else none) 0

/-- Python `int(s)` on a string: optional sign then digits.  (CPython also
accepts surrounding whitespace and `_` separators; the grader's stats
counters never use them.) -/
def pyIntOfStr (s : String) : Option Int :=
  match s.data with
  | '-' :: rest => (digitsToNat rest).map (fun n => -(n : Int))
  | '+' :: rest => (digitsToNat rest).map (fun n => (n : Int))
  | cs => (digitsToNat cs).map (fun n => (n : Int))

mutual

/-- Python `repr` of a parsed-JSON value (`repr` is what `str` applies to the
elements of lists and dicts).  CPython escaping inside string literals is not
modelled; no claim exercises it. -/
def pyRepr : JVal → String
  | .null => "None"
  | .bool true => "True"
  | .bool false => "False"
  | .num n => toString n
  | .str s => "'" ++ s ++ "'"
  | .arr xs => "[" ++ pyJoin ", " (pyReprList xs) ++ "]"
  | .obj kvs => "\x7b" ++ pyJoin ", " (pyReprObj kvs) ++ "\x7d"

def pyReprList : List JVal → List String
  | [] => []
  | x :: xs => pyRepr x :: pyReprList xs

def pyReprObj : List (String × JVal) → List String
  | [] => []
  | (k, v) :: kvs => ("'" ++ k ++ "': " ++ pyRepr v) :: pyReprObj kvs

end

/-- Python `str` of a parsed-JSON value (differs from `repr` only on
strings themselves). -/
def pyStr : JVal → String
  | .str s => s
  | v => pyRepr v

mutual

/-- Python `json.dumps` of a parsed-JSON value (default separators; string
escaping not modelled, as for `pyRepr`). -/
def jsonDumps : JVal → String
  | .null => "null"
  | .bool true => "true"
  | .bool false => "false"
  | .num n => toString n
  | .str s => "\"" ++ s ++ "\""
  | .arr xs => "[" ++ pyJoin ", " (jsonDumpsList xs) ++ "]"
  | .obj kvs => "\x7b" ++ pyJoin ", " (jsonDumpsObj kvs) ++ "\x7d"

def jsonDumpsList : List JVal → List String
  | [] => []
  | x :: xs => jsonDumps x :: jsonDumpsList xs

def jsonDumpsObj : List (String × JVal) → List String
  | [] => []
  | (k, v) :: kvs => ("\"" ++ k ++ "\": " ++ jsonDumps v) :: jsonDumpsObj kvs

end

/-! Constants and state sets from the top of `grader.py`. -/

def DEFAULT_RESULTS_FILENAME : String := "cypress-results.json"

def MAX_DETAIL_ENTRIES : Nat := 20

/-- `PASS_STATES` (a Python set; modelled as the list of its members). -/
def PASS_STATES : List String := ["passed", "pass", "success"]

/-- `FAIL_STATES`. -/
def FAIL_STATES : List String := ["failed", "fail", "broken", "errored", "error"]

/-- `PENDING_STATES`. -/
def PENDING_STATES : List String := ["pending", "skipped", "skip", "canceled", "cancelled"]

def DEFAULT_SECRET_VALUE : String := "your-long-passphrase"

/-! `format_test_title`, `_normalise_error_message`, `extract_state_and_error`. -/

/-- `format_test_title(test)`: `title`/`name`/`id` chained by truthiness,
breadcrumb lists joined with " › " after dropping `None` parts. -/
def format_test_title (test : Obj) : String :=
  let title := pyOr (dictGet test "title")
    (pyOr (dictGet test "name") (pyOr (dictGet test "id") (.str "Untitled test")))
  match title with
  | .arr parts =>
      pyJoin " › " ((parts.filter (fun p => match p with | .null => false | _ => true)).map pyStr)
  | v => pyStr v

/-- First truthy value among the given keys of a dict
(the `for key in (...)` loop of `_normalise_error_message`). -/
def firstTruthyKey (kvs : Obj) : List String → Option JVal
  | [] => none
  | k :: ks => let v := dictGet kvs k; if jtruthy v then some v else firstTruthyKey kvs ks

/-- `_normalise_error_message(raw_error)`. -/
def normalise_error_message : JVal → Option String
  | .null => none
  | .str s => some (pyStrip s)
  | .obj [] => none
  | .obj (kv :: kvs) =>
      match firstTruthyKey (kv :: kvs) ["message", "displayMessage", "stack", "stacktrace", "name"] with
      | some v => some (pyStrip (pyStr v))
      | none => some (jsonDumps (.obj (kv :: kvs)))
  | v => some (pyStr v)

/-- Python `v is True`. -/
def isTrueV : JVal → Bool
  | .bool true => true
  | _ => false

/-- The `for attempt in reversed(attempts)` walk of `extract_state_and_error`,
given the already-reversed attempts list.  A string `state` field overrides the
state; a truthy `error`/`message` field overrides the error; a truthy `state`
field stops the walk. -/
def walk_attempts : List JVal → JVal → JVal → JVal × JVal
  | [], st, em => (st, em)
  | a :: rest, st, em =>
      match a with
      | .obj akvs =>
          let ast := dictGet akvs "state"
          let st' := match ast with
            | .str s => JVal.str (pyLower s)
            | _ => st
          let aerr := pyOr (dictGet akvs "error") (dictGet akvs "message")
          let em' := if jtruthy aerr then aerr else em
          if jtruthy ast then (st', em') else walk_attempts rest st' em'
      | _ => walk_attempts rest st em

/-- `extract_state_and_error(test)`: base state from `state`/`status` (lowered
when a string) or inferred from boolean-ish fields; error message from
`displayError`/`err`/`error`/`message`; then the backward attempts walk; then
the unknown-state + `err`-object special case. -/
def extract_state_and_error (test : Obj) : JVal × Option String :=
  let state0 := pyOr (dictGet test "state") (dictGet test "status")
  let state1 := match state0 with
    | .str s => JVal.str (pyLower s)
    | v => v
  let state2 :=
    if jtruthy state1 then state1
    else if jtruthy (dictGet test "pass") || isTrueV (dictGet test "passed") then .str "passed"
    else if jtruthy (dictGet test "fail") || isTrueV (dictGet test "failed") then .str "failed"
    else if jtruthy (dictGet test "pending") then .str "pending"
    else .str "unknown"
  let errMsg0 := pyOr (dictGet test "displayError")
    (pyOr (dictGet test "err") (pyOr (dictGet test "error") (dictGet test "message")))
  let walked :=
    match dictGet test "attempts" with
    | .arr [] => (state2, errMsg0)
    | .arr (a :: as) => walk_attempts (a :: as).reverse state2 errMsg0
    | _ => (state2, errMsg0)
  let state3 := walked.1
  let errMsg1 := walked.2
  let fixed :=
    if (match state3 with | .str s => s == "unknown" | _ => false) then
      match dictGet test "err" with
      | .obj [] => (JVal.str "passed", errMsg1)
      | .obj (ekv :: ekvs) =>
          (JVal.str "failed", if jtruthy errMsg1 then errMsg1 else JVal.obj (ekv :: ekvs))
      | _ => (state3, errMsg1)
    else (state3, errMsg1)
  (fixed.1, normalise_error_message fixed.2)

/-- `iter_suite_tests(node)`: recursively walk suite structures; a dict node
yields its dict-valued `tests` entries then recurses into a truthy `suites`
value; a list node recurses into each item. -/
def iter_suite_tests : JVal → List Obj
  | .obj kvs =>
      (match dictGet kvs "tests" with
       | .arr ts => ts.filterMap asObj
       | _ => [])
      ++ (match h : List.lookup "suites" kvs with
          | some s => if jtruthy s then iter_suite_tests s else []
          | none => [])
  | .arr [] => []
  | .arr (x :: xs) => iter_suite_tests x ++ iter_suite_tests (.arr xs)
  | _ => []
termination_by v => v.size
decreasing_by
  · exact lookup_size_lt h
  · have := JVal.size_pos (JVal.arr xs)
    simp only [JVal.size]; omega
  · have := JVal.size_pos x
    simp only [JVal.size]; omega

/-!
`iter_all_tests` and the summarizer.  Python exceptions raised by duck-typed
accesses (e.g. `run.get(...)` on a non-dict run: `AttributeError`) are
modelled with `Except String`, the string abbreviating the exception text;
`main` converts any of them into the generic zero-score feedback, exactly as
the top-level `except Exception` handler does.
The regular-expression test `re.search(pattern, name, re.IGNORECASE)` is
abstracted as a boolean-valued parameter `rmatch pattern name`.
-/

/-- One `runs` entry of `iter_all_tests`: optional spec-pattern filter, then
the run's dict-valued `tests` entries, then its `suites` tree. -/
def run_tests (run : JVal) (specPattern : Option String)
    (rmatch : String → String → Bool) : Except String (List Obj) :=
  match run with
  | .obj rkvs => do
      let skip ← match specPattern with
        | some pat =>
            if pat ≠ "" then
              match dictGetD rkvs "spec" (.obj []) with
              | .obj skvs =>
                  match pyOr (dictGet skvs "relative") (pyOr (dictGet skvs "name") (.str "")) with
                  | .str sname => pure (!(rmatch pat sname))
                  | _ => throw "TypeError: expected string or bytes-like object"
              | _ => throw "AttributeError: spec value has no method get"
            else pure false
        | none => pure false
      if skip then pure []
      else
        let direct := match dictGet rkvs "tests" with
          | .arr ts => ts.filterMap asObj
          | _ => []
        let fromSuites :=
          let s := dictGet rkvs "suites"
          if jtruthy s then iter_suite_tests s else []
        pure (direct ++ fromSuites)
  | _ => throw "AttributeError: run value has no method get"

/-- `iter_all_tests(data, spec_pattern)`: tests under `runs`, then a flat
top-level `tests` list, then the `suites` trees under `results`; the produced
list is the sequence the Python generator yields. -/
def iter_all_tests (data : Obj) (specPattern : Option String)
    (rmatch : String → String → Bool) : Except String (List Obj) := do
  let fromRuns ← match dictGet data "runs" with
    | .arr runs => do
        let lists ← runs.mapM (fun run => run_tests run specPattern rmatch)
        pure lists.flatten
    | _ => pure []
  let flat := match dictGet data "tests" with
    | .arr ts => ts.filterMap asObj
    | _ => []
  let fromResults ← match dictGet data "results" with
    | .arr rs => do
        let lists ← rs.mapM (fun r =>
          match r with
          | .obj rk =>
              let s := dictGet rk "suites"
              Except.ok (if jtruthy s then iter_suite_tests s else [])
          | _ => Except.error "AttributeError: result value has no method get")
        pure lists.flatten
    | _ => pure []
  pure (fromRuns ++ flat ++ fromResults)

/-- The four-way classification the `summarize_results` loop applies to an
extracted state (`if state in PASS_STATES: ... else: ...`).  A list- or
dict-valued state is unhashable: Python raises `TypeError` at the first
membership test. -/
inductive StClass where
  | passed | failed | pending | unknown
deriving DecidableEq

def classify_state : JVal → Except String StClass
  | .str s =>
      .ok (if s ∈ PASS_STATES then .passed
           else if s ∈ FAIL_STATES then .failed
           else if s ∈ PENDING_STATES then .pending
           else .unknown)
  | .arr _ => .error "TypeError: unhashable type: list"
  | .obj _ => .error "TypeError: unhashable type: dict"
  | _ => .ok .unknown

/-- The `(passed, failed, pending)` counter increments of one classified
outcome: the unknown branch increments `failed`. -/
def class_increments : StClass → Nat × Nat × Nat
  | .passed => (1, 0, 0)
  | .failed => (0, 1, 0)
  | .pending => (0, 0, 1)
  | .unknown => (0, 1, 0)

/-- Truthiness of an optional string (`if not error_message`). -/
def optTruthy : Option String → Bool
  | none => false
  | some s => s != ""

/-- One detail entry appended by the `summarize_results` loop. -/
structure TestDetail where
  title : String
  passed : Bool
  state : JVal
  error : Option String

/-- The summary dict returned by `summarize_results`.  Counts are integers:
the stats fallback copies whatever integers the document declares. -/
structure Summary where
  total_tests : Int
  passed_tests : Int
  failed_tests : Int
  pending_tests : Int
  test_details : List TestDetail

/-- One iteration of the `summarize_results` loop. -/
def summarize_step (acc : Nat × Nat × Nat × List TestDetail) (test : Obj) :
    Except String (Nat × Nat × Nat × List TestDetail) := do
  let (p, f, q, ds) := acc
  let title := format_test_title test
  let se := extract_state_and_error test
  let state := se.1
  let errMsg := se.2
  let cls ← classify_state state
  let inc := class_increments cls
  let errMsg' :=
    if cls = StClass.unknown && !(optTruthy errMsg) then
      some ("Test reported unknown state '" ++ pyStr state ++ "'.")
    else errMsg
  pure (p + inc.1, f + inc.2.1, q + inc.2.2,
    ds ++ [⟨title, cls = StClass.passed, state, errMsg'⟩])

/-- `iter_stats_blocks(data)`: the top-level `stats` dict, then each run's
`stats` dict; a non-dict entry under `runs` raises. -/
def iter_stats_blocks (data : Obj) : Except String (List Obj) := do
  let top := match dictGet data "stats" with
    | .obj s => [s]
    | _ => []
  let fromRuns ← match dictGet data "runs" with
    | .arr runs =>
        runs.foldlM (fun acc run =>
          match run with
          | .obj rk =>
              Except.ok (acc ++ (match dictGet rk "stats" with | .obj s => [s] | _ => []))
          | _ => Except.error "AttributeError: run value has no method get") []
    | _ => Except.ok []
  pure (top ++ fromRuns)

/-- Python `int(v)` on a parsed-JSON value. -/
def pyInt : JVal → Except String Int
  | .num n => .ok n
  | .bool b => .ok (if b then 1 else 0)
  | .str s =>
      match pyIntOfStr s with
      | some n => .ok n
      | none => .error "ValueError: invalid literal for int() with base 10"
  | _ => .error "TypeError: int() argument must not be None, a list or a dict"

/-- The totals dict built by `aggregate_stats`. -/
structure StatsTotals where
  tests : Int
  passes : Int
  failures : Int
  pending : Int

/-- One stats block folded into the totals.  Each counter is a
truthiness-chained lookup over alternate field spellings, then `int(...)`. -/
def aggregate_step (tot : StatsTotals) (stats : Obj) : Except String StatsTotals := do
  let t ← pyInt (dictGetD stats "tests" (.num 0))
  let p ← pyInt (pyOr (dictGet stats "passes")
    (pyOr (dictGet stats "pass")
      (pyOr (dictGet stats "testsPassed") (dictGetD stats "successes" (.num 0)))))
  let f ← pyInt (pyOr (dictGet stats "failures")
    (pyOr (dictGet stats "failed")
      (pyOr (dictGet stats "testsFailed") (dictGetD stats "fail" (.num 0)))))
  let pd ← pyInt (pyOr (dictGet stats "pending") (dictGetD stats "skipped" (.num 0)))
  pure ⟨tot.tests + t, tot.passes + p, tot.failures + f, tot.pending + pd⟩

/-- `aggregate_stats(data)`. -/
def aggregate_stats (data : Obj) : Except String StatsTotals := do
  let blocks ← iter_stats_blocks data
  blocks.foldlM aggregate_step ⟨0, 0, 0, 0⟩

/-- `summarize_results(data, spec_pattern)`: walk all tests classifying each
outcome; when zero outcomes were produced, fall back to the aggregated stats
blocks (the detail list stays empty and the total is recomputed as
passed + failed + pending). -/
def summarize_results (data : Obj) (specPattern : Option String)
    (rmatch : String → String → Bool) : Except String Summary := do
  let tests ← iter_all_tests data specPattern rmatch
  let acc ← tests.foldlM summarize_step (0, 0, 0, [])
  let (p, f, q, ds) := acc
  let total := p + f + q
  if total = 0 then do
    let st ← aggregate_stats data
    pure ⟨st.passes + st.failures + st.pending, st.passes, st.failures, st.pending, ds⟩
  else
    pure ⟨(total : Int), (p : Int), (f : Int), (q : Int), ds⟩

/-- `key in data and isinstance(data[key], list)`: the looked-up value
exists and is a list. -/
def isListValued (o : Option JVal) : Bool :=
  match o with
  | some (.arr _) => true
  | _ => false

/-- `isinstance(stats, dict) and any(key in stats for key in (...))`. -/
def statsHasKnownKey (o : Option JVal) : Bool :=
  match o with
  | some (.obj sk) =>
      (["tests", "passes", "failures", "testsRegistered"] : List String).any
        (fun k => (List.lookup k sk).isSome)
  | _ => false

/-- `is_probably_cypress_results(data)`: the sniff rule, as coded. -/
def is_probably_cypress_results : JVal → Bool
  | .obj kvs =>
      isListValued (List.lookup "runs" kvs)
      || statsHasKnownKey (List.lookup "stats" kvs)
      || isListValued (List.lookup "tests" kvs)
      || isListValued (List.lookup "results" kvs)
  | _ => false

/-! The feedback formatter (`build_feedback_lines`) and the sink
(`util.send_feedback`), with `main`'s control flow. -/

/-- Membership of a state value in one of the state sets (`state in
FAIL_STATES`): only a string can be a member.  (CPython would raise
`TypeError` on an unhashable list/dict state, but `summarize_results` has
already raised on such a state before `build_feedback_lines` can see it.) -/
def stateMem (st : JVal) (set : List String) : Bool :=
  match st with
  | .str s => set.contains s
  | _ => false

/-- Two-digit zero-padded fragment of `formatPercent`. -/
def twoDigits (m : Nat) : String :=
  (if m < 10 then "0" else "") ++ toString m

/-- `⌊q + 1/2⌋` computed on the numerator and denominator. -/
def ratRound (q : ℚ) : Int := Int.fdiv (2 * q.num + q.den) (2 * q.den)

/-- Python `f"{score:.2%}"`: the score as a percentage with two decimals.
CPython formats a binary float with round-half-even; this model rounds the
exact rational, which agrees on every score the grader produces in practice
and is never load-bearing for a claim. -/
def formatPercent (q : ℚ) : String :=
  let n : Int := ratRound (q * 10000)
  (if n < 0 then "-" else "") ++ toString (n.natAbs / 100) ++ "." ++ twoDigits (n.natAbs % 100) ++ "%"

/-- The lines the detail loop of `build_feedback_lines` appends for one
entry: a glyph keyed by raw-state membership of the state sets, and the
error message beneath it only when the raw state is in `FAIL_STATES`. -/
def detail_entry_lines (entry : TestDetail) : List String :=
  let glyph :=
    if stateMem entry.state FAIL_STATES then "❌"
    else if stateMem entry.state PENDING_STATES then "⚠️"
    else "✅"
  let line := glyph ++ " " ++ entry.title ++ " (" ++ pyStr entry.state ++ ")"
  if optTruthy entry.error && stateMem entry.state FAIL_STATES then
    [line, "   Error: " ++ (entry.error.getD "")]
  else [line]

/-- `build_feedback_lines(passed, failed, pending, score, details)`. -/
def build_feedback_lines (passed failed pending : Int) (score : ℚ)
    (details : List TestDetail) : List String :=
  let executed := passed + failed
  let headline :=
    if failed = 0 ∧ executed > 0 then "All executed Cypress tests passed."
    else "You passed " ++ toString passed ++ " of " ++ toString (max 1 executed)
      ++ " executed Cypress tests."
  let pendingNote :=
    if pending ≠ 0 then
      [toString pending ++ " tests are pending or skipped; they do not affect the score."]
    else []
  let summaryBlock :=
    ["", "Test summary:",
     "Passed: " ++ toString passed,
     "Failed: " ++ toString failed,
     "Pending: " ++ toString pending,
     "Score: " ++ formatPercent score]
  let detailBlock :=
    match details with
    | [] => []
    | _ =>
        ["", "Detailed results:"]
        ++ (details.take MAX_DETAIL_ENTRIES).flatMap detail_entry_lines
        ++ (if details.length > MAX_DETAIL_ENTRIES then
              ["...and " ++ toString ((details.length : Int) - MAX_DETAIL_ENTRIES) ++ " more test results."]
            else [])
  [headline] ++ pendingNote ++ summaryBlock ++ detailBlock

/-- The record `send_feedback` writes: `fractionalScore` is the argument
clamped to `[0, 1]` (`max(0.0, min(1.0, float(score)))`). -/
structure FeedbackPost where
  fractionalScore : ℚ
  feedback : String
deriving DecidableEq

/-- `util.send_feedback(score, msg)` (the written payload; the file write
itself is I/O and cannot change the payload). -/
def send_feedback (score : ℚ) (msg : String) : FeedbackPost :=
  ⟨max 0 (min 1 score), msg⟩

/-- The two ways `main`'s `try` body can fail: the taxonomy error
(`CypressResultsError`) and any other exception. -/
inductive GErr where
  | cypress (msg : String)
  | unexpected (msg : String)

/-- The feedback text each `except` arm of `main` passes to the sink. -/
def err_feedback_msg : GErr → String
  | .cypress m => m
  | .unexpected m => "Unexpected error while reading Cypress results: " ++ m

/-- `score = passed / max(1, passed + failed)` as computed in `main`
(exact rational division in place of CPython float division). -/
def score_of (passed failed : Int) : ℚ :=
  (passed : ℚ) / ((max 1 (passed + failed) : Int) : ℚ)

/-- The tail of `main`'s `try` body once a summary exists: raise `no-tests`
on a zero total (caught by the `CypressResultsError` arm), otherwise send the
score with the formatted feedback.  The returned list is the trace of
`send_feedback` calls. -/
def emit_summary (s : Summary) : List FeedbackPost :=
  if s.total_tests = 0 then
    [send_feedback 0 "No tests were found in the provided Cypress results JSON file."]
  else
    let score := score_of s.passed_tests s.failed_tests
    [send_feedback score
      (pyJoin "\n" (build_feedback_lines s.passed_tests s.failed_tests s.pending_tests score
        s.test_details))]

/-- `main(part_id)` as the trace of `send_feedback` calls it makes.  The
pipeline up to and including `load_results` (configuration, file location,
decryption, parsing) is I/O; its outcome is the parameter `loadRes`:
either the loaded top-level dict or the raised error.  Each `except` arm
sends a zero score; exceptions raised inside `summarize_results` reach the
generic `except Exception` arm. -/
def main_trace (loadRes : Except GErr Obj) (specPattern : Option String)
    (rmatch : String → String → Bool) : List FeedbackPost :=
  match loadRes with
  | .error e => [send_feedback 0 (err_feedback_msg e)]
  | .ok data =>
      match summarize_results data specPattern rmatch with
      | .error m => [send_feedback 0 ("Unexpected error while reading Cypress results: " ++ m)]
      | .ok s => emit_summary s

/-! `load_results` (C4, C5): the decode/parse loop with its one-shot decrypt
retry, and the post-parse structure checks. -/

/-- Outcome of decoding-then-JSON-parsing one byte string: success, a
`UnicodeDecodeError`, or a `json.JSONDecodeError` (each with the exception
text interpolated into the grader's message). -/
inductive ParseOut where
  | ok (v : JVal)
  | badUtf8 (e : String)
  | badJson (e : String)

/-- The `CypressResultsError` message `load_results` raises for a failing
parse outcome. -/
def parse_fail_msg (path : String) : ParseOut → String
  | .badUtf8 e => "Results file '" ++ path ++ "' is not valid UTF-8 encoded text: " ++ e
  | .badJson e => "Results file '" ++ path ++ "' is not valid JSON: " ++ e
  | .ok _ => ""

/-- The checks after the parse loop: the document must be a dict and must
pass the sniff rule. -/
def finish_load (v : JVal) : Except String Obj :=
  match v with
  | .obj kvs =>
      if is_probably_cypress_results (.obj kvs) then .ok kvs
      else .error "Provided JSON file does not look like Cypress test results."
  | _ => .error "Cypress results JSON must contain an object at the top level."

/-- The `while True` loop of `load_results` plus `finish_load`, returning the
result together with the number of decrypt retries made
(`_maybe_decrypt_after_failure` calls that reached `decrypt_results_file`).

Parameters: `treatEnc` is `should_treat_as_encrypted(path)`; `firstParse` is
the parse outcome of the bytes `read_results_bytes` returned; `decryptParse`
is the outcome of `decrypt_results_file` followed by parsing its output
(`.error` when decryption itself raised).

The loop is unrolled: `attempted_decrypt` is set to `True` on every
`continue`, and `_maybe_decrypt_after_failure` returns `None` (no retry)
as soon as `attempted_decrypt` is true or the file was already treated as
encrypted, so the body runs at most twice and at most one decrypt retry
ever happens. -/
def load_results_core (treatEnc : Bool) (firstParse : ParseOut)
    (decryptParse : Except String ParseOut) (path : String) :
    Except String Obj × Nat :=
  match firstParse with
  | .ok v => (finish_load v, 0)
  | fp =>
      if treatEnc then
        (.error (parse_fail_msg path fp), 0)
      else
        match decryptParse with
        | .error m => (.error m, 1)
        | .ok (.ok v) => (finish_load v, 1)
        | .ok fp2 => (.error (parse_fail_msg path fp2), 1)

/-! `_expand_candidate_filenames` (C8). -/

/-- The local `add` closure: append a name unless already present. -/
def addName (names : List String) (n : String) : List String :=
  if n ∈ names then names else names ++ [n]

/-- `_expand_candidate_filenames(base_name)`. -/
def expand_candidate_filenames (base : String) : List String :=
  let names := addName [] base
  let lower := pyLower base
  let names := if pyEndsWith lower ".enc" then names else addName names (base ++ ".enc")
  let names := if pyEndsWith lower ".json" && !(pyEndsWith lower ".json.enc") then
      addName names (pyDropRight base 5 ++ ".json.enc")
    else names
  let names := addName names DEFAULT_RESULTS_FILENAME
  let names := addName names (DEFAULT_RESULTS_FILENAME ++ ".enc")
  addName names "cypress-results.enc"

/-! `get_results_secret` (C6). -/

/-- The environment and file system visible to `get_results_secret`:
the two environment variables and the contents of the secret file
(`none` when the path is not a readable file; `Path.expanduser` is folded
into the map). -/
structure SecretEnv where
  secretFileVar : Option String
  secretVar : Option String
  fileContents : String → Option String

/-- The module state `(_SECRET_INITIALISED, _CACHED_SECRET)`:
`none` when not yet initialised, `some cached` afterwards. -/
abbrev SecretState := Option (Option String)

/-- Truthiness of `os.environ.get(...)` (unset or empty is falsy). -/
def envTruthy : Option String → Bool
  | none => false
  | some s => s != ""

/-- The tail of `get_results_secret` once `secret_value` is resolved:
fall back to the default placeholder when empty, cache, and apply the
`required` check.  Returns the result paired with the new module state. -/
def finish_secret (sv : String) (required : Bool) :
    Except String (Option String) × SecretState :=
  let sv := if sv = "" then DEFAULT_SECRET_VALUE else sv
  let cached : Option String := if sv = "" then none else some sv
  if required && !cached.isSome then
    (.error ("Encrypted Cypress results detected but no decryption secret was provided. "
      ++ "The grader expects the encryption key to match the 'partId' of this assignment."),
     some cached)
  else (.ok cached, some cached)

/-- `get_results_secret(part_id, required)` over explicit state.  On the
first call `_SECRET_INITIALISED` is set before anything can raise, so a
failed secret-file read leaves the state initialised with no cached
secret. -/
def get_results_secret (env : SecretEnv) (st : SecretState)
    (partId : Option String) (required : Bool) :
    Except String (Option String) × SecretState :=
  match st with
  | some cached =>
      if required && !cached.isSome then
        (.error "Encrypted Cypress results detected but no decryption secret was provided.",
         some cached)
      else (.ok cached, some cached)
  | none =>
      if envTruthy env.secretFileVar then
        let sf := env.secretFileVar.getD ""
        match env.fileContents sf with
        | none =>
            (.error ("Cypress secret file '" ++ sf ++ "' does not exist or is not readable."),
             some none)
        | some contents => finish_secret (pyStrip contents) required
      else
        let sv := pyStrip ((env.secretVar.getD ""))
        let sv := if sv = "" && envTruthy partId then partId.getD "" else sv
        finish_secret sv required

/-!
Definitions written from the spec's words, for refinement-style claims:
each is compared against the corresponding definition taken from the
source.
-/

/-- The score formula as the spec words it: `p / max(1, p+f)`. -/
def claim_score_formula (p f : Int) : ℚ := (p : ℚ) / max 1 ((p : ℚ) + (f : ℚ))

/-- The sniff rule as the spec words it: a list-valued `runs` key, or a
`stats` object containing at least one known counter field name, or a
list-valued `tests` key, or a list-valued `results` key. -/
def sniff_rule_spec (kvs : Obj) : Prop :=
  (∃ xs, List.lookup "runs" kvs = some (JVal.arr xs)) ∨
  (∃ sk, List.lookup "stats" kvs = some (JVal.obj sk) ∧
    ∃ k ∈ (["tests", "passes", "failures", "testsRegistered"] : List String),
      (List.lookup k sk).isSome = true) ∨
  (∃ xs, List.lookup "tests" kvs = some (JVal.arr xs)) ∨
  (∃ xs, List.lookup "results" kvs = some (JVal.arr xs))

/-- The candidate-name enumeration of the claim, amended to the three
hardcoded fallbacks the code appends: the name itself, its `.enc` variant
(unless the name already ends in `.enc`), its `.json`→`.json.enc` variant
(when the name ends in `.json` but not `.json.enc`), then
`cypress-results.json`, `cypress-results.json.enc` and
`cypress-results.enc`; duplicates are dropped keeping the first
occurrence. -/
def claimed_candidate_sequence (base : String) : List String :=
  [base]
  ++ (if pyEndsWith (pyLower base) ".enc" then [] else [base ++ ".enc"])
  ++ (if pyEndsWith (pyLower base) ".json" && !(pyEndsWith (pyLower base) ".json.enc") then
        [pyDropRight base 5 ++ ".json.enc"]
      else [])
  ++ [DEFAULT_RESULTS_FILENAME, DEFAULT_RESULTS_FILENAME ++ ".enc", "cypress-results.enc"]

/-- First-occurrence deduplication of a list: keep each name the first time
it appears, drop every later repetition.  Used to state exactly which list
`_expand_candidate_filenames` produces from the claimed enumeration. -/
def dedupFirst : List String → List String
  | [] => []
  | x :: xs => x :: dedupFirst (xs.filter (fun y => y != x))
termination_by l => l.length
decreasing_by
  simp only [List.length_cons]
  exact Nat.lt_succ_of_le (List.length_filter_le _ _)

/-! Theorems for the claims. -/

/-- C7: for a test whose `attempts` list is
`[{"state":"failed"},{"state":"passed"}]`, `extract_state_and_error` returns
state `"passed"`: the backward walk stops at the first attempt carrying a
state field (the last list entry), that state overrides any base state, and
attempt error fields seen up to the stopping point override the error
message preferring the most recent one seen. -/
theorem c7_attempts_backward_walk :
    extract_state_and_error
        [("attempts", JVal.arr [JVal.obj [("state", JVal.str "failed")],
          JVal.obj [("state", JVal.str "passed")]])]
      = (JVal.str "passed", none) ∧
    extract_state_and_error
        [("state", JVal.str "failed"),
         ("attempts", JVal.arr [JVal.obj [("state", JVal.str "failed")],
          JVal.obj [("state", JVal.str "passed")]])]
      = (JVal.str "passed", none) ∧
    extract_state_and_error
        [("attempts", JVal.arr [JVal.obj [("state", JVal.str "failed"), ("error", JVal.str "e1")],
          JVal.obj [("error", JVal.str "e2")]])]
      = (JVal.str "failed", some "e1") :=
  ⟨rfl, rfl, rfl⟩

/-- C10: in `aggregate_stats` the alternate field-name lookups are chained by
truthiness, so a counter present with value `0` is skipped in favour of the
next spelling: `\x7b"passes": 0, "pass": 3\x7d` contributes 3 passes. -/
theorem c10_zero_counter_skipped :
    jtruthy (JVal.num 0) = false ∧
    aggregate_stats [("stats", JVal.obj [("passes", JVal.num 0), ("pass", JVal.num 3)])]
      = .ok ⟨0, 3, 0, 0⟩ :=
  ⟨rfl, rfl⟩

/-- C8 counterexample: `_expand_candidate_filenames "foo.txt"` contains
`"cypress-results.enc"`, a third hardcoded fallback that is none of the four
names the claim enumerates (the name itself, its `.enc` variant, and two
default fallbacks), so the claim's "exactly two hardcoded fallback names …
and nothing else" is false. -/
theorem c8_counterexample :
    expand_candidate_filenames "foo.txt"
      = ["foo.txt", "foo.txt.enc", "cypress-results.json", "cypress-results.json.enc",
         "cypress-results.enc"] ∧
    "cypress-results.enc" ∈ expand_candidate_filenames "foo.txt" ∧
    "cypress-results.enc" ∉ ["foo.txt", "foo.txt.enc",
      "cypress-results.json", "cypress-results.json.enc"] := by
  refine ⟨rfl, ?_, ?_⟩ <;> decide

/-- C9 counterexample: the detail entry for a test with unrecognized state
`"bogus"` is classified as failed by the scoring taxonomy (the unknown
branch increments the failed counter), yet `build_feedback_lines` renders it
with the pass glyph "✅" and does not print its error message — the claim's
"fail status glyph … and the pass glyph appears only on entries classified
as passed" is false. -/
theorem c9_counterexample :
    classify_state (JVal.str "bogus") = .ok .unknown ∧
    class_increments .unknown = (0, 1, 0) ∧
    detail_entry_lines ⟨"t", false, JVal.str "bogus", some "Test reported unknown state 'bogus'."⟩
      = ["✅ t (bogus)"] ∧
    build_feedback_lines 0 1 0 0
        [⟨"t", false, JVal.str "bogus", some "Test reported unknown state 'bogus'."⟩]
      = ["You passed 0 of 1 executed Cypress tests.", "", "Test summary:",
         "Passed: 0", "Failed: 1", "Pending: 0", "Score: 0.00%", "",
         "Detailed results:", "✅ t (bogus)"] ∧
    ("✅" : String) ≠ "❌" := by
  refine ⟨rfl, rfl, rfl, ?_, by decide⟩
  have hfp : formatPercent 0 = "0.00%" := by
    have h0 : ratRound ((0 : ℚ) * 10000) = 0 := by
      simp [ratRound]
    simp only [formatPercent, h0]
    decide
  have h1 : build_feedback_lines 0 1 0 0
      [⟨"t", false, JVal.str "bogus", some "Test reported unknown state 'bogus'."⟩]
    = ["You passed 0 of 1 executed Cypress tests.", "", "Test summary:",
       "Passed: 0", "Failed: 1", "Pending: 0", "Score: " ++ formatPercent 0, "",
       "Detailed results:", "✅ t (bogus)"] := rfl
  rw [h1, hfp]
  rfl

/-- C6 counterexample: with the secret-file override set to a readable file
whose contents strip to the empty string and the direct secret override set
to `"envsecret"`, resolution returns the default placeholder — it never
falls through to source (b) as the claim states. -/
theorem c6_counterexample :
    (get_results_secret ⟨some "/s", some "envsecret", fun _ => some "   "⟩
        none (some "p1") false).1
      = .ok (some "your-long-passphrase") ∧
    ("your-long-passphrase" : String) ≠ "envsecret" ∧
    ("your-long-passphrase" : String) ≠ "p1" := by
  refine ⟨rfl, by decide, by decide⟩

theorem isListValued_iff (o : Option JVal) :
    isListValued o = true ↔ ∃ xs, o = some (JVal.arr xs) := by
  cases o with
  | none => simp [isListValued]
  | some v => cases v <;> simp [isListValued]

theorem statsHasKnownKey_iff (o : Option JVal) :
    statsHasKnownKey o = true ↔
      ∃ sk, o = some (JVal.obj sk) ∧
        ∃ k ∈ (["tests", "passes", "failures", "testsRegistered"] : List String),
          (List.lookup k sk).isSome = true := by
  cases o with
  | none => simp [statsHasKnownKey]
  | some v => cases v <;> simp [statsHasKnownKey, List.any_eq_true]

/-- C3: a test outcome whose normalized state string lies in none of the
known state sets is classified by the `summarize_results` loop into the
unknown branch, which increments the failed counter (and never the passed
one); `"broken"` is itself in `FAIL_STATES`; a concrete document with state
`"wobbly"` summarises to one failed, zero passed. -/
theorem c3_unknown_states_failed :
    (∀ st : String, st ∉ PASS_STATES → st ∉ FAIL_STATES → st ∉ PENDING_STATES →
      classify_state (.str st) = .ok .unknown ∧ class_increments .unknown = (0, 1, 0)) ∧
    "broken" ∈ FAIL_STATES ∧
    classify_state (.str "broken") = .ok .failed ∧
    summarize_results
        [("tests", JVal.arr [JVal.obj [("title", JVal.str "t"), ("state", JVal.str "wobbly")]])]
        none (fun _ _ => false)
      = .ok ⟨1, 0, 1, 0,
          [⟨"t", false, JVal.str "wobbly", some "Test reported unknown state 'wobbly'."⟩]⟩ := by
  refine ⟨fun st h1 h2 h3 => ⟨?_, rfl⟩, by decide, rfl, ?_⟩
  · simp [classify_state, h1, h2, h3]
  · rfl

/-- Witness for `c3_unknown_states_failed` at the unknown state
`"wobbly"`. -/
theorem c3_unknown_states_failed_witness :
    classify_state (.str "wobbly") = .ok .unknown ∧ class_increments .unknown = (0, 1, 0) :=
  c3_unknown_states_failed.1 "wobbly" (by decide) (by decide) (by decide)

/-- C4: `is_probably_cypress_results` accepts a top-level object exactly
when the spec's sniff rule holds; the empty document fails the sniff, makes
`load_results` raise the input-unrecognized error, and `main` then sends a
0.0 score with that message. -/
theorem c4_sniff_rule :
    (∀ kvs : Obj, is_probably_cypress_results (.obj kvs) = true ↔ sniff_rule_spec kvs) ∧
    is_probably_cypress_results (.obj []) = false ∧
    (∀ treatEnc dr path, load_results_core treatEnc (.ok (.obj [])) dr path
        = (.error "Provided JSON file does not look like Cypress test results.", 0)) ∧
    (∀ sp rm,
      main_trace (.error (.cypress "Provided JSON file does not look like Cypress test results."))
          sp rm
        = [send_feedback 0 "Provided JSON file does not look like Cypress test results."]) ∧
    (send_feedback 0 "Provided JSON file does not look like Cypress test results.").fractionalScore
      = 0 := by
  refine ⟨fun kvs => ?_, rfl, fun _ _ _ => rfl, fun _ _ => rfl, ?_⟩
  · simp only [is_probably_cypress_results, Bool.or_eq_true, isListValued_iff,
      statsHasKnownKey_iff, sniff_rule_spec, or_assoc]
  · simp [send_feedback]

/-- Witness for `c4_sniff_rule`: the iff instantiated at a one-key object
with a list-valued `runs` key. -/
theorem c4_sniff_rule_witness :
    is_probably_cypress_results (.obj [("runs", JVal.arr [])]) = true ↔
      sniff_rule_spec [("runs", JVal.arr [])] :=
  c4_sniff_rule.1 [("runs", JVal.arr [])]

/-- C5: the parse loop of `load_results` makes at most one decrypt retry;
a retry happens only when the artifact was not already treated as encrypted
(and the first parse failed); when the artifact was flagged encrypted, or
when the retry's output also fails to parse, the input-malformed taxonomy
error is raised. -/
theorem c5_retry_bounded :
    ∀ (treatEnc : Bool) (fp : ParseOut) (dr : Except String ParseOut) (path : String),
      (load_results_core treatEnc fp dr path).2 ≤ 1 ∧
      ((load_results_core treatEnc fp dr path).2 = 1 →
        treatEnc = false ∧ ∀ v, fp ≠ .ok v) ∧
      ((∀ v, fp ≠ .ok v) → treatEnc = true →
        load_results_core treatEnc fp dr path = (.error (parse_fail_msg path fp), 0)) ∧
      (∀ fp2, (∀ v, fp ≠ .ok v) → treatEnc = false → dr = .ok fp2 → (∀ v, fp2 ≠ .ok v) →
        load_results_core treatEnc fp dr path = (.error (parse_fail_msg path fp2), 1)) := by
  intro treatEnc fp dr path
  cases fp with
  | ok v =>
      refine ⟨by simp [load_results_core], by simp [load_results_core], ?_, ?_⟩
      · intro h _; exact absurd rfl (h v)
      · intro _ h; exact absurd rfl (h v)
  | badUtf8 e =>
      cases treatEnc with
      | true =>
          refine ⟨by simp [load_results_core], by simp [load_results_core],
            fun _ _ => by simp [load_results_core], ?_⟩
          intro fp2 _ h; exact absurd h (by simp)
      | false =>
          cases dr with
          | error m =>
              refine ⟨by simp [load_results_core], fun _ => ⟨rfl, by simp⟩,
                fun _ h => by simp at h, ?_⟩
              intro fp2 _ _ h; exact absurd h (by simp)
          | ok fp2 =>
              cases fp2 with
              | ok v2 =>
                  refine ⟨by simp [load_results_core], fun _ => ⟨rfl, by simp⟩,
                    fun _ h => by simp at h, ?_⟩
                  intro fp3 _ _ h hne
                  obtain rfl : fp3 = ParseOut.ok v2 := by
                    simpa using h.symm
                  exact absurd rfl (hne v2)
              | badUtf8 e2 =>
                  refine ⟨by simp [load_results_core], fun _ => ⟨rfl, by simp⟩,
                    fun _ h => by simp at h, ?_⟩
                  intro fp3 _ _ h _
                  obtain rfl : fp3 = ParseOut.badUtf8 e2 := by simpa using h.symm
                  simp [load_results_core]
              | badJson e2 =>
                  refine ⟨by simp [load_results_core], fun _ => ⟨rfl, by simp⟩,
                    fun _ h => by simp at h, ?_⟩
                  intro fp3 _ _ h _
                  obtain rfl : fp3 = ParseOut.badJson e2 := by simpa using h.symm
                  simp [load_results_core]
  | badJson e =>
      cases treatEnc with
      | true =>
          refine ⟨by simp [load_results_core], by simp [load_results_core],
            fun _ _ => by simp [load_results_core], ?_⟩
          intro fp2 _ h; exact absurd h (by simp)
      | false =>
          cases dr with
          | error m =>
              refine ⟨by simp [load_results_core], fun _ => ⟨rfl, by simp⟩,
                fun _ h => by simp at h, ?_⟩
              intro fp2 _ _ h; exact absurd h (by simp)
          | ok fp2 =>
              cases fp2 with
              | ok v2 =>
                  refine ⟨by simp [load_results_core], fun _ => ⟨rfl, by simp⟩,
                    fun _ h => by simp at h, ?_⟩
                  intro fp3 _ _ h hne
                  obtain rfl : fp3 = ParseOut.ok v2 := by simpa using h.symm
                  exact absurd rfl (hne v2)
              | badUtf8 e2 =>
                  refine ⟨by simp [load_results_core], fun _ => ⟨rfl, by simp⟩,
                    fun _ h => by simp at h, ?_⟩
                  intro fp3 _ _ h _
                  obtain rfl : fp3 = ParseOut.badUtf8 e2 := by simpa using h.symm
                  simp [load_results_core]
              | badJson e2 =>
                  refine ⟨by simp [load_results_core], fun _ => ⟨rfl, by simp⟩,
                    fun _ h => by simp at h, ?_⟩
                  intro fp3 _ _ h _
                  obtain rfl : fp3 = ParseOut.badJson e2 := by simpa using h.symm
                  simp [load_results_core]

/-- Witness for `c5_retry_bounded`: a flagged-encrypted artifact whose
sole parse fails raises the input-malformed error with zero retries. -/
theorem c5_retry_bounded_witness :
    load_results_core true (.badJson "Expecting value") (.error "ignored") "p"
      = (.error (parse_fail_msg "p" (.badJson "Expecting value")), 0) :=
  (c5_retry_bounded true (.badJson "Expecting value") (.error "ignored") "p").2.2.1
    (fun v => by simp) rfl

theorem emit_summary_length (s : Summary) : (emit_summary s).length = 1 := by
  unfold emit_summary
  split <;> rfl

/-- C2: for every pipeline outcome, `main` invokes the feedback sink exactly
once — on success (non-zero total) with the computed score and the formatted
feedback lines, on a zero total with the no-tests taxonomy message and score
0, and on any raised error (taxonomy or unexpected) with score 0 and the
corresponding feedback string; the trace of `send_feedback` calls always has
length one, so no exception escapes `main` unhandled. -/
theorem c2_feedback_sent_exactly_once :
    ∀ (r : Except GErr Obj) (sp : Option String) (rm : String → String → Bool),
      (main_trace r sp rm).length = 1 ∧
      (∀ e, r = .error e → main_trace r sp rm = [send_feedback 0 (err_feedback_msg e)]) ∧
      (∀ d m, r = .ok d → summarize_results d sp rm = .error m →
        main_trace r sp rm
          = [send_feedback 0 ("Unexpected error while reading Cypress results: " ++ m)]) ∧
      (∀ d s, r = .ok d → summarize_results d sp rm = .ok s →
        (s.total_tests = 0 →
          main_trace r sp rm
            = [send_feedback 0 "No tests were found in the provided Cypress results JSON file."]) ∧
        (s.total_tests ≠ 0 →
          main_trace r sp rm
            = [send_feedback (score_of s.passed_tests s.failed_tests)
                (pyJoin "\n" (build_feedback_lines s.passed_tests s.failed_tests
                  s.pending_tests (score_of s.passed_tests s.failed_tests)
                  s.test_details))])) := by
  intro r sp rm
  cases r with
  | error e =>
      refine ⟨rfl, fun e' he => ?_, fun d m hd => ?_, fun d s hd => ?_⟩
      · cases he; rfl
      · cases hd
      · cases hd
  | ok data =>
      refine ⟨?_, ?_, ?_, ?_⟩
      · rcases hs : summarize_results data sp rm with m | s
        · simp [main_trace, hs]
        · simp [main_trace, hs, emit_summary_length]
      · intro e' he; cases he
      · intro d m hd hs
        cases hd
        simp [main_trace, hs]
      · intro d s hd hs
        cases hd
        refine ⟨fun h0 => ?_, fun h0 => ?_⟩
        · simp [main_trace, hs, emit_summary, h0]
        · simp only [main_trace, hs]
          unfold emit_summary
          rw [if_neg h0]

/-- Witness for `c2_feedback_sent_exactly_once` at a taxonomy error. -/
theorem c2_feedback_sent_exactly_once_witness :
    (main_trace (.error (.cypress "boom")) none (fun _ _ => false)).length = 1 ∧
    main_trace (.error (.cypress "boom")) none (fun _ _ => false)
      = [send_feedback 0 (err_feedback_msg (.cypress "boom"))] :=
  ⟨(c2_feedback_sent_exactly_once (.error (.cypress "boom")) none (fun _ _ => false)).1,
   (c2_feedback_sent_exactly_once (.error (.cypress "boom")) none (fun _ _ => false)).2.1
     (.cypress "boom") rfl⟩

/-- C1: for a summary with nonnegative counts `p`, `f`, `q` and total
`p + f + q > 0`, `main` computes the score `p / max(1, p + f)` — pending
tests appear in neither numerator nor denominator — sends exactly that
score, the score lies in `[0, 1]`, and the sink's defensive clamp
(`max(0.0, min(1.0, score))`) keeps every score it is handed inside
`[0, 1]` and leaves this one unchanged. -/
theorem c1_score_formula_and_clamp :
    (∀ (s : ℚ) (m : String), 0 ≤ (send_feedback s m).fractionalScore ∧
      (send_feedback s m).fractionalScore ≤ 1) ∧
    ∀ (p f q : ℤ) (ds : List TestDetail), 0 ≤ p → 0 ≤ f → 0 ≤ q → 0 < p + f + q →
      emit_summary ⟨p + f + q, p, f, q, ds⟩
        = [send_feedback (score_of p f)
            (pyJoin "\n" (build_feedback_lines p f q (score_of p f) ds))] ∧
      score_of p f = claim_score_formula p f ∧
      0 ≤ score_of p f ∧ score_of p f ≤ 1 ∧
      (send_feedback (score_of p f)
          (pyJoin "\n" (build_feedback_lines p f q (score_of p f) ds))).fractionalScore
        = score_of p f := by
  constructor
  · intro s m
    constructor
    · exact le_max_left 0 (min 1 s)
    · exact max_le (by norm_num) (min_le_left 1 s)
  · intro p f q ds hp hf hq htot
    have hform : score_of p f = claim_score_formula p f := by
      unfold score_of claim_score_formula
      rw [Int.cast_max]
      push_cast
      ring_nf
    have hden : (0 : ℚ) < max 1 ((p : ℚ) + (f : ℚ)) :=
      lt_of_lt_of_le one_pos (le_max_left _ _)
    have h0 : 0 ≤ score_of p f := by
      rw [hform]
      unfold claim_score_formula
      exact div_nonneg (by exact_mod_cast hp) hden.le
    have h1 : score_of p f ≤ 1 := by
      rw [hform]
      unfold claim_score_formula
      rw [div_le_one hden]
      have : (p : ℚ) ≤ (p : ℚ) + (f : ℚ) := by
        have : (0 : ℚ) ≤ (f : ℚ) := by exact_mod_cast hf
        linarith
      exact this.trans (le_max_right _ _)
    refine ⟨?_, hform, h0, h1, ?_⟩
    · unfold emit_summary
      rw [if_neg (by simpa using htot.ne.symm)]
    · unfold send_feedback
      simp only
      rw [min_eq_right h1, max_eq_right h0]

/-- Witness for `c1_score_formula_and_clamp` at `p = 1`, `f = 1`,
`q = 1`. -/
theorem c1_score_formula_and_clamp_witness :
    emit_summary ⟨1 + 1 + 1, 1, 1, 1, []⟩
      = [send_feedback (score_of 1 1)
          (pyJoin "\n" (build_feedback_lines 1 1 1 (score_of 1 1) []))] ∧
    score_of 1 1 = claim_score_formula 1 1 ∧
    0 ≤ score_of 1 1 ∧ score_of 1 1 ≤ 1 ∧
    (send_feedback (score_of 1 1)
        (pyJoin "\n" (build_feedback_lines 1 1 1 (score_of 1 1) []))).fractionalScore
      = score_of 1 1 :=
  c1_score_formula_and_clamp.2 1 1 1 [] (by norm_num) (by norm_num) (by norm_num) (by norm_num)

/-- C6 (amended): secret resolution returns, in fixed order: (a) when the
secret-file environment override is set, the trimmed contents of that file —
failing hard if it is unreadable, and falling directly to the default
placeholder (d) when the trimmed contents are empty, never consulting (b)
or (c); otherwise (b) the trimmed direct secret override when non-empty;
otherwise (c) the part identifier verbatim when truthy; otherwise (d) the
default placeholder.  The resolved value is cached and every later call
returns the cache unchanged. -/
theorem c6_resolution_order_amended :
    ∀ (env : SecretEnv) (pid : Option String) (req : Bool),
      (∀ sf c, env.secretFileVar = some sf → sf ≠ "" → env.fileContents sf = some c →
        pyStrip c ≠ "" →
        get_results_secret env none pid req
          = (.ok (some (pyStrip c)), some (some (pyStrip c)))) ∧
      (∀ sf, env.secretFileVar = some sf → sf ≠ "" → env.fileContents sf = none →
        get_results_secret env none pid req
          = (.error ("Cypress secret file '" ++ sf ++ "' does not exist or is not readable."),
             some none)) ∧
      (∀ sf c, env.secretFileVar = some sf → sf ≠ "" → env.fileContents sf = some c →
        pyStrip c = "" →
        get_results_secret env none pid req
          = (.ok (some DEFAULT_SECRET_VALUE), some (some DEFAULT_SECRET_VALUE))) ∧
      (envTruthy env.secretFileVar = false → pyStrip (env.secretVar.getD "") ≠ "" →
        get_results_secret env none pid req
          = (.ok (some (pyStrip (env.secretVar.getD ""))),
             some (some (pyStrip (env.secretVar.getD ""))))) ∧
      (∀ p, envTruthy env.secretFileVar = false → pyStrip (env.secretVar.getD "") = "" →
        pid = some p → p ≠ "" →
        get_results_secret env none pid req = (.ok (some p), some (some p))) ∧
      (envTruthy env.secretFileVar = false → pyStrip (env.secretVar.getD "") = "" →
        envTruthy pid = false →
        get_results_secret env none pid req
          = (.ok (some DEFAULT_SECRET_VALUE), some (some DEFAULT_SECRET_VALUE))) ∧
      (∀ c, ¬ (req = true ∧ c = none) →
        get_results_secret env (some c) pid req = (.ok c, some c)) ∧
      (∀ c, (get_results_secret env (some c) pid req).2 = some c) := by
  intro env pid req
  refine ⟨?_, ?_, ?_, ?_, ?_, ?_, ?_, ?_⟩
  · intro sf c hsf hne hc hst
    have ht : envTruthy (some sf) = true := by simpa [envTruthy] using hne
    rw [get_results_secret, hsf]
    simp only [ht, if_true, Option.getD_some, hc]
    simp [finish_secret, hst]
  · intro sf hsf hne hc
    have ht : envTruthy (some sf) = true := by simpa [envTruthy] using hne
    rw [get_results_secret, hsf]
    simp only [ht, if_true, Option.getD_some, hc]
  · intro sf c hsf hne hc hst
    have ht : envTruthy (some sf) = true := by simpa [envTruthy] using hne
    have hd : DEFAULT_SECRET_VALUE ≠ "" := by decide
    rw [get_results_secret, hsf]
    simp only [ht, if_true, Option.getD_some, hc]
    simp [finish_secret, hst, hd]
  · intro hf hs
    rw [get_results_secret]
    simp only [hf, Bool.false_eq_true, if_false]
    simp [finish_secret, hs]
  · intro p hf hs hpid hpne
    have hpt : envTruthy pid = true := by simp [hpid, envTruthy, hpne]
    rw [get_results_secret]
    simp only [hf, Bool.false_eq_true, if_false, hs, hpt]
    simp [finish_secret, hpid, hpne]
  · intro hf hs hpt
    have hd : DEFAULT_SECRET_VALUE ≠ "" := by decide
    rw [get_results_secret]
    simp only [hf, Bool.false_eq_true, if_false, hs, hpt]
    simp [finish_secret, hd]
  · intro c hc
    rcases c with _ | v
    · have : req = false := by
        by_contra hne
        exact hc ⟨by simpa using hne, rfl⟩
      rw [get_results_secret]
      simp [this]
    · rw [get_results_secret]
      simp
  · intro c
    rcases c with _ | v
    · cases req <;> (rw [get_results_secret]; simp)
    · rw [get_results_secret]; simp

/-- Witness for `c6_resolution_order_amended`: empty trimmed secret-file
contents resolve to the default placeholder even with a direct override
set. -/
theorem c6_resolution_order_amended_witness :
    get_results_secret ⟨some "/s", some "envsecret", fun _ => some "   "⟩ none (some "p1") false
      = (.ok (some DEFAULT_SECRET_VALUE), some (some DEFAULT_SECRET_VALUE)) :=
  (c6_resolution_order_amended ⟨some "/s", some "envsecret", fun _ => some "   "⟩
      (some "p1") false).2.2.1 "/s" "   " rfl (by decide) rfl (by decide)

theorem addName_nodup {names : List String} {n : String} (h : names.Nodup) :
    (addName names n).Nodup := by
  unfold addName
  split
  · exact h
  · next hn => simp [List.nodup_append, h, hn]

theorem addName_sublist {names L : List String} {n : String} (h : names.Sublist L) :
    (addName names n).Sublist (L ++ [n]) := by
  unfold addName
  split
  · exact h.trans (L.sublist_append_left [n])
  · exact h.append (List.Sublist.refl [n])

theorem mem_addName_self (names : List String) (n : String) : n ∈ addName names n := by
  unfold addName
  split
  · assumption
  · simp

theorem mem_addName_of_mem {names : List String} {m : String} (n : String) (h : m ∈ names) :
    m ∈ addName names n := by
  unfold addName
  split
  · exact h
  · simp [h]

theorem addName_ne_nil (names : List String) (n : String) : addName names n ≠ [] := by
  unfold addName
  split
  · next h => exact List.ne_nil_of_mem h
  · simp

theorem head?_addName {names : List String} (n : String) (h : names ≠ []) :
    (addName names n).head? = names.head? := by
  unfold addName
  split
  · rfl
  · cases names with
    | nil => exact absurd rfl h
    | cons x xs => rfl

theorem foldl_addName_eq (l : List String) : ∀ acc : List String,
    l.foldl addName acc = acc ++ dedupFirst (l.filter (fun y => !(acc.contains y))) := by
  induction l with
  | nil => intro acc; simp [dedupFirst]
  | cons x xs ih =>
      intro acc
      rw [List.foldl_cons, ih (addName acc x), List.filter_cons]
      by_cases hx : x ∈ acc
      · have ha : addName acc x = acc := by simp [addName, hx]
        have hc : acc.contains x = true := by simpa using hx
        rw [ha, hc]
        simp
      · have ha : addName acc x = acc ++ [x] := by simp [addName, hx]
        have hc : acc.contains x = false := by simpa using hx
        rw [ha, hc]
        simp only [Bool.not_false, if_true, List.append_assoc, List.singleton_append]
        congr 1
        rw [dedupFirst]
        congr 1
        rw [List.filter_filter]
        congr 1
        apply List.filter_congr
        intro a _
        by_cases hax : a = x
        · subst hax; simp
        · simp [hax]

theorem foldl_addName_nil (l : List String) : l.foldl addName [] = dedupFirst l := by
  simpa using foldl_addName_eq l []

theorem expand_eq_foldl (base : String) :
    expand_candidate_filenames base = (claimed_candidate_sequence base).foldl addName [] := by
  simp only [expand_candidate_filenames, claimed_candidate_sequence]
  cases h1 : pyEndsWith (pyLower base) ".enc" <;>
    cases h2 : pyEndsWith (pyLower base) ".json" && !(pyEndsWith (pyLower base) ".json.enc") <;>
    simp only [Bool.false_eq_true, if_false, if_true] <;> rfl

/-- C8 (amended): for every base filename, `_expand_candidate_filenames`
produces exactly the first-occurrence deduplication of the amended
enumeration — the name itself, its encrypted-suffixed variant (when the
name does not already end in `.enc`), its `.json`→`.json.enc` variant
(when it ends in `.json` but not `.json.enc`), and exactly three hardcoded
fallback names: the plain default results filename, its encrypted variant,
and `cypress-results.enc` — in that order, without duplicates, and nothing
else; in particular each conditional variant really is produced, and the
list starts with the name itself. -/
theorem c8_candidate_list_amended :
    ∀ base : String,
      expand_candidate_filenames base = dedupFirst (claimed_candidate_sequence base) ∧
      (expand_candidate_filenames base).Nodup ∧
      (expand_candidate_filenames base).head? = some base ∧
      (expand_candidate_filenames base).Sublist (claimed_candidate_sequence base) ∧
      (pyEndsWith (pyLower base) ".enc" = false →
        (base ++ ".enc") ∈ expand_candidate_filenames base) ∧
      ((pyEndsWith (pyLower base) ".json" && !(pyEndsWith (pyLower base) ".json.enc")) = true →
        (pyDropRight base 5 ++ ".json.enc") ∈ expand_candidate_filenames base) ∧
      DEFAULT_RESULTS_FILENAME ∈ expand_candidate_filenames base ∧
      (DEFAULT_RESULTS_FILENAME ++ ".enc") ∈ expand_candidate_filenames base ∧
      "cypress-results.enc" ∈ expand_candidate_filenames base := by
  intro base
  refine ⟨(expand_eq_foldl base).trans (foldl_addName_nil _), ?_⟩
  have hb : addName [] base = [base] := by simp [addName]
  have s0 : (addName [] base).Sublist [base] := by rw [hb]
  simp only [expand_candidate_filenames, claimed_candidate_sequence]
  cases h1 : pyEndsWith (pyLower base) ".enc" <;>
    cases h2 : pyEndsWith (pyLower base) ".json" && !(pyEndsWith (pyLower base) ".json.enc") <;>
    simp only [Bool.false_eq_true, if_false, if_true] <;>
    refine ⟨?_, ?_, ?_, ?_, ?_, ?_, ?_, ?_⟩
  case false.false.refine_1 | false.true.refine_1 | true.false.refine_1 | true.true.refine_1 =>
    repeat (first | exact List.nodup_nil | apply addName_nodup)
  case false.false.refine_2 | false.true.refine_2 | true.false.refine_2 | true.true.refine_2 =>
    simp [head?_addName, addName_ne_nil, hb]
  case true.true.refine_3 =>
    have s1 := addName_sublist (n := pyDropRight base 5 ++ ".json.enc") s0
    have s2 := addName_sublist (n := DEFAULT_RESULTS_FILENAME) s1
    have s3 := addName_sublist (n := DEFAULT_RESULTS_FILENAME ++ ".enc") s2
    have s4 := addName_sublist (n := "cypress-results.enc") s3
    simpa using s4
  case true.false.refine_3 =>
    have s1 := addName_sublist (n := DEFAULT_RESULTS_FILENAME) s0
    have s2 := addName_sublist (n := DEFAULT_RESULTS_FILENAME ++ ".enc") s1
    have s3 := addName_sublist (n := "cypress-results.enc") s2
    simpa using s3
  case false.true.refine_3 =>
    have s1 := addName_sublist (n := base ++ ".enc") s0
    have s2 := addName_sublist (n := pyDropRight base 5 ++ ".json.enc") s1
    have s3 := addName_sublist (n := DEFAULT_RESULTS_FILENAME) s2
    have s4 := addName_sublist (n := DEFAULT_RESULTS_FILENAME ++ ".enc") s3
    have s5 := addName_sublist (n := "cypress-results.enc") s4
    simpa using s5
  case false.false.refine_3 =>
    have s1 := addName_sublist (n := base ++ ".enc") s0
    have s2 := addName_sublist (n := DEFAULT_RESULTS_FILENAME) s1
    have s3 := addName_sublist (n := DEFAULT_RESULTS_FILENAME ++ ".enc") s2
    have s4 := addName_sublist (n := "cypress-results.enc") s3
    simpa using s4
  case false.false.refine_4 =>
    intro _
    exact mem_addName_of_mem _ (mem_addName_of_mem _ (mem_addName_of_mem _
      (mem_addName_self _ _)))
  case false.true.refine_4 =>
    intro _
    exact mem_addName_of_mem _ (mem_addName_of_mem _ (mem_addName_of_mem _
      (mem_addName_of_mem _ (mem_addName_self _ _))))
  case true.false.refine_4 | true.true.refine_4 =>
    intro h
    simp at h
  case false.false.refine_5 | true.false.refine_5 =>
    intro h
    simp at h
  case false.true.refine_5 | true.true.refine_5 =>
    intro _
    exact mem_addName_of_mem _ (mem_addName_of_mem _ (mem_addName_of_mem _
      (mem_addName_self _ _)))
  case false.false.refine_6 | false.true.refine_6 | true.false.refine_6 | true.true.refine_6 =>
    exact mem_addName_of_mem _ (mem_addName_of_mem _ (mem_addName_self _ _))
  case false.false.refine_7 | false.true.refine_7 | true.false.refine_7 | true.true.refine_7 =>
    exact mem_addName_of_mem _ (mem_addName_self _ _)
  case false.false.refine_8 | false.true.refine_8 | true.false.refine_8 | true.true.refine_8 =>
    exact mem_addName_self _ _

/-- Witness for `c8_candidate_list_amended` at `"results.json"`, which ends
in `.json` and not in `.enc`: both conditional variants are produced. -/
theorem c8_candidate_list_amended_witness :
    ("results.json" ++ ".enc") ∈ expand_candidate_filenames "results.json" ∧
    (pyDropRight "results.json" 5 ++ ".json.enc") ∈ expand_candidate_filenames "results.json" :=
  ⟨(c8_candidate_list_amended "results.json").2.2.2.2.1 (by decide),
   (c8_candidate_list_amended "results.json").2.2.2.2.2.1 (by decide)⟩

/-- C9 (amended): in the detailed feedback list, an entry whose raw state is
in `FAIL_STATES` is rendered with the fail glyph and, when it carries a
truthy error message, that message indented beneath; an entry whose raw
state is in neither `FAIL_STATES` nor `PENDING_STATES` — which includes
every unrecognized state, although the scoring taxonomy counts those as
failed — is rendered with the pass glyph and never shows its error.  The
pass glyph therefore appears on unknown-state entries as well, not only on
entries classified as passed. -/
theorem c9_glyph_rendering_amended :
    ∀ entry : TestDetail,
      (stateMem entry.state FAIL_STATES = true →
        detail_entry_lines entry
          = ["❌" ++ " " ++ entry.title ++ " (" ++ pyStr entry.state ++ ")"]
            ++ (if optTruthy entry.error then ["   Error: " ++ entry.error.getD ""] else [])) ∧
      (stateMem entry.state FAIL_STATES = false → stateMem entry.state PENDING_STATES = false →
        detail_entry_lines entry
          = ["✅" ++ " " ++ entry.title ++ " (" ++ pyStr entry.state ++ ")"]) ∧
      (∀ st : String, st ∉ PASS_STATES → st ∉ FAIL_STATES → st ∉ PENDING_STATES →
        class_increments StClass.unknown = (0, 1, 0) ∧
        stateMem (.str st) FAIL_STATES = false) := by
  intro entry
  refine ⟨?_, ?_, ?_⟩
  · intro hf
    unfold detail_entry_lines
    rw [hf]
    cases he : optTruthy entry.error <;> simp
  · intro hf hp
    unfold detail_entry_lines
    rw [hf, hp]
    simp
  · intro st h1 h2 h3
    refine ⟨rfl, ?_⟩
    simp only [stateMem]
    simpa using h2

/-- Witness for `c9_glyph_rendering_amended` at a failed entry carrying an
error message. -/
theorem c9_glyph_rendering_amended_witness :
    detail_entry_lines ⟨"t", false, JVal.str "failed", some "boom"⟩
      = ["❌" ++ " " ++ "t" ++ " (" ++ pyStr (JVal.str "failed") ++ ")"]
        ++ (if optTruthy (some "boom") then ["   Error: " ++ (some "boom").getD ""] else []) :=
  (c9_glyph_rendering_amended ⟨"t", false, JVal.str "failed", some "boom"⟩).1 rfl
